import Mathlib

/-!
Verification of the multi-format tabular loader, report-template dispatch,
analysis orchestrator and report writer of the repository
(`smart_file_analyzer.py` and `analyze_advanced.py`).

The Python code is shallowly embedded: pure data flow becomes Lean
functions; the external collaborators (the pandas parsing routines, the
pandas string renderers, the HTTP text-generation service and the
matplotlib chart body) are passed in as explicit parameters or outcome
values, exactly at the points where the source calls out to them.
All repository-owned logic (existence/extension dispatch, the delimiter
trial, the question loop, error-string formatting, template lookup, the
report serializer) is translated directly from the source.
-/

/-- A loaded table: ordered column names and rows of cells.  This models the
pandas DataFrame as far as the repository code observes it (shape, column
list, cell contents). -/
structure Table where
  columns : List String
  rows : List (List String)
deriving Repr, DecidableEq

/-- One entry of the analysis list produced by `FileDataAnalyzer.analyze_file`:
the dict with keys question and answer appended at lines 233-236 of
`smart_file_analyzer.py`. -/
structure Analysis where
  question : String
  answer : String
deriving Repr, DecidableEq

/-! Helpers modelling the Python string primitives the source relies on
(`str.split`, `str.strip`, `str.lower`, `pathlib.Path.suffix`,
`file.readlines`).  They are written by structural recursion on character
lists so that the kernel can evaluate them on concrete inputs. -/

/-- Split a character list on a separator character; mirrors Python
`str.split(sep)` for a one-character separator (and `String.splitOn`). -/
def splitOnChar (c : Char) : List Char → List (List Char)
  | [] => [[]]
  | x :: xs =>
    let r := splitOnChar c xs
    if x = c then
      [] :: r
    else
      match r with
      | [] => [[x]]
      | y :: ys => (x :: y) :: ys

/-- Index of the last occurrence of a character, mirroring Python
`str.rfind` (used by `pathlib` to locate the extension dot). -/
def lastIdxOf (cs : List Char) (c : Char) : Option Nat :=
  match (cs.reverse).findIdx? (fun x => x = c) with
  | some j => some (cs.length - 1 - j)
  | none => none

/-- Characters stripped by Python `str.strip()` (ASCII whitespace). -/
def pyIsSpace (c : Char) : Bool :=
  c = ' ' || c = '\t' || c = '\n' || c = '\r' || c = '\x0b' || c = '\x0c'

/-- Python `str.strip()`: drop leading and trailing whitespace. -/
def pyStrip (s : String) : String :=
  String.mk (((s.data.dropWhile pyIsSpace).reverse.dropWhile pyIsSpace).reverse)

/-- Python `str.lower()` restricted to ASCII letters, which is all the
source applies it to (file extensions and CLI template names). -/
def pyLower (s : String) : String :=
  String.mk (s.data.map Char.toLower)

/-- Python `file.readlines()` on decoded text content, with the trailing
newline of each line already removed (the source strips every line right
after reading, so the kept newline is unobservable). -/
def pyReadLines (s : String) : List String :=
  if s.isEmpty then
    []
  else
    let parts := (splitOnChar '\n' s.data).map String.mk
    if parts.getLast? = some "" then parts.dropLast else parts

/-- The final path component, as `pathlib.PurePath.name`: the last
nonempty slash-separated component. -/
def pyName (p : String) : String :=
  ((((splitOnChar '/' p.data).map String.mk).filter (fun s => !s.isEmpty)).getLast?).getD ""

/-- The file extension with its dot, as `pathlib.PurePath.suffix`: the part
of the name from the last dot on, empty when the dot is leading, trailing
or absent. -/
def pySuffix (p : String) : String :=
  let name := pyName p
  let cs := name.data
  match lastIdxOf cs '.' with
  | some i => if 0 < i ∧ i + 1 < cs.length then String.mk (cs.drop i) else ""
  | none => ""

/-! The loader (`FileDataAnalyzer.read_file` and `_read_txt`). -/

/-- Keys of the `supported_formats` dict built in
`FileDataAnalyzer.__init__` (lines 27-35). -/
def supportedFormats : List String :=
  [".csv", ".xlsx", ".xls", ".json", ".parquet", ".tsv", ".txt"]

/-- The extension the loader dispatches on:
`file_path.suffix.lower()` (line 92). -/
def fileExt (path : String) : String :=
  pyLower (pySuffix path)

/-- Typed failure of the loader.  The source returns `None` in three
distinct branches of `read_file`, each with its own diagnostic message;
the constructors record which branch fired. -/
inductive LoadError where
  | fileNotFound
  | unsupportedFormat (ext : String)
  | parseFailure (msg : String)
deriving Repr, DecidableEq

/-- `FileDataAnalyzer.read_file` (lines 73-107).  `fsExists` models
`Path.exists()`; `handler` models the format handlers stored in
`supported_formats` (pandas readers and `_read_txt`), keyed by the
lowercased extension and applied to the path; an exception raised by a
handler is an `Except.error` carrying its message, which `read_file`
catches and reports (lines 100-107). -/
def read_file (fsExists : String → Bool)
    (handler : String → String → Except String Table)
    (path : String) : Except LoadError Table :=
  if !(fsExists path) then
    .error .fileNotFound
  else
    let ext := fileExt path
    if ext ∈ supportedFormats then
      match handler ext path with
      | .ok df => .ok df
      | .error e => .error (.parseFailure e)
    else
      .error (.unsupportedFormat ext)

/-- The delimiter trial order of `_read_txt` (line 60). -/
def txtSeparators : List String :=
  [",", "\t", ";", "|", " "]

/-- The loop of `_read_txt` (lines 61-67): try each separator in order;
`attempt sep` models `pd.read_csv(file_path, sep=sep)`, `none` standing
for a raised exception.  A parse that succeeds with at most one column
falls through to the next separator, exactly as in the source. -/
def readTxtTrial (attempt : String → Option Table) : List String → Option Table
  | [] => none
  | sep :: rest =>
    match attempt sep with
    | some df => if df.columns.length > 1 then some df else readTxtTrial attempt rest
    | none => readTxtTrial attempt rest

/-- The fallback of `_read_txt` (lines 68-71): a single column named
content holding each line of the file, stripped. -/
def txtFallback (content : String) : Table :=
  { columns := ["content"], rows := (pyReadLines content).map (fun l => [pyStrip l]) }

/-- `FileDataAnalyzer._read_txt` (lines 57-71), with the file content
(decoded as UTF-8) passed explicitly. -/
def read_txt (attempt : String → Option Table) (content : String) : Table :=
  (readTxtTrial attempt txtSeparators).getD (txtFallback content)

/-! The text-generation call (`FileDataAnalyzer.chat_with_llm`). -/

/-- Outcome of one `requests.post` to the generate endpoint, as observed by
`chat_with_llm`: either the server replied with a status code and (for a
JSON body) the value of its response field, or the request raised
(transport error, timeout, undecodable body). -/
inductive HTTPOutcome where
  | response (status : Nat) (text : String)
  | failure (msg : String)
deriving Repr, DecidableEq

/-- `FileDataAnalyzer.chat_with_llm` (lines 131-147), applied to the
outcome of its single HTTP request: on status 200 the response text is
returned verbatim, on any other status a formatted error string embedding
the status, and on a raised exception a formatted error string embedding
its message. -/
def chat_with_llm (outcome : HTTPOutcome) : String :=
  match outcome with
  | .response status text =>
    if status = 200 then text else "错误: HTTP " ++ toString status
  | .failure e => "请求失败: " ++ e

/-! The orchestrator (`FileDataAnalyzer.analyze_file`). -/

/-- The single-quote character, used by the Python repr of strings. -/
def pyQuote : String :=
  String.singleton (Char.ofNat 39)

/-- Interleave a separator between strings, as Python `sep.join`. -/
def joinSep (sep : String) : List String → String
  | [] => ""
  | [s] => s
  | s :: rest => s ++ sep ++ joinSep sep rest

/-- Python `str(list_of_strings)` for names without characters that repr
would escape, which is how line 213 renders `list(df.columns)`. -/
def pyReprStrList (xs : List String) : String :=
  "[" ++ joinSep ", " (xs.map (fun s => pyQuote ++ s ++ pyQuote)) ++ "]"

/-- Python `str(df.shape)`: the (rows, columns) tuple of the table. -/
def pyShape (t : Table) : String :=
  "(" ++ toString t.rows.length ++ ", " ++ toString t.columns.length ++ ")"

/-- The prompt built for one question (lines 207-228).  `renderHead` and
`renderDescribe` model the pandas renderings `df.head().to_string()` and
`df.describe().to_string()`, deterministic functions of the table supplied
by the external library. -/
def buildPrompt (renderHead renderDescribe : Table → String)
    (filePath : String) (df : Table) (question : String) : String :=
  "\n你是一个专业的数据分析师。请分析以下数据并回答问题。\n\n文件信息:\n- 路径: "
    ++ filePath
    ++ "\n- 形状: " ++ pyShape df
    ++ "\n- 列名: " ++ pyReprStrList df.columns
    ++ "\n\n数据预览:\n" ++ renderHead df
    ++ "\n\n数据统计:\n" ++ renderDescribe df
    ++ "\n\n问题: " ++ question
    ++ "\n\n请提供:\n1. 详细的数据分析\n2. 关键发现和洞察\n3. 实用的建议\n4. 用中文回答，条理清晰\n"

/-- The question loop of `analyze_file` (lines 203-237):
`for i, question in enumerate(questions, 1)` builds the prompt for each
question, submits it (one blocking call per question, in list order) and
appends the question/answer pair.  `collab i prompt` is the outcome of the
call made for the question numbered `i` (numbering starts at 1, as in the
source). -/
def analyzeLoop (collab : Nat → String → HTTPOutcome)
    (renderHead renderDescribe : Table → String)
    (filePath : String) (df : Table) : Nat → List String → List Analysis
  | _, [] => []
  | i, q :: rest =>
    { question := q
      answer := chat_with_llm (collab i (buildPrompt renderHead renderDescribe filePath df q)) }
      :: analyzeLoop collab renderHead renderDescribe filePath df (i + 1) rest

/-- The full analysis list produced by one `analyze_file` run. -/
def analyzeAnalyses (collab : Nat → String → HTTPOutcome)
    (renderHead renderDescribe : Table → String)
    (filePath : String) (df : Table) (questions : List String) : List Analysis :=
  analyzeLoop collab renderHead renderDescribe filePath df 1 questions

/-- The default question list hard-coded in `analyze_file`
(lines 167-177), used whenever the caller passes no questions. -/
def defaultQuestions : List String :=
  [ "请生成完整的数据质量评估报告，包括缺失值、重复值、数据类型一致性分析"
  , "制作详细的描述性统计分析报表，包含分布特征、集中趋势、离散程度"
  , "生成数据趋势分析报告，识别时间序列模式、季节性变化、异常点检测"
  , "创建相关性分析矩阵报表，发现变量间的关联关系和潜在因果关系"
  , "制作业务洞察仪表板，提供关键指标、预警信号、决策建议"
  , "生成异常值检测报告，使用统计学方法识别离群点并分析原因"
  , "创建数据分布分析报表，包含正态性检验、偏度峰度分析"
  , "制作预测性分析报告，基于历史数据预测未来趋势" ]

/-- Question resolution at the top of `analyze_file` (lines 166-177):
`questions` is an optional argument defaulting to the built-in list. -/
def resolveQuestions (questions : Option (List String)) : List String :=
  questions.getD defaultQuestions

/-- Outcome of the matplotlib body of `generate_charts` (lines 247-564):
either it ran to completion and saved the chart under the returned
filename, or some statement in it raised. -/
inductive ChartOutcome where
  | ok (path : String)
  | failure (msg : String)
deriving Repr, DecidableEq

/-- `FileDataAnalyzer.generate_charts` error handling (lines 245-568): the
whole body is wrapped in try/except and a raise yields `None`
(line 566-568). -/
def generate_charts (chart : ChartOutcome) : Option String :=
  match chart with
  | .ok p => some p
  | .failure _ => none

/-- The result dict of `analyze_file` (lines 196-243): file metadata, the
ordered analysis list, and the chart path (the dtype map of `file_info`,
a pandas rendering, is carried by the `columns` and table fields the
claims observe). -/
structure AnalysisReport where
  path : String
  shape : Nat × Nat
  columns : List String
  analyses : List Analysis
  chartPath : Option String
deriving Repr, DecidableEq

/-- `FileDataAnalyzer.analyze_file` (lines 149-243): read the file, and on
failure return the error dict; otherwise resolve the questions, run the
question loop, attach the chart outcome and return the report. -/
def analyze_file (fsExists : String → Bool)
    (handler : String → String → Except String Table)
    (collab : Nat → String → HTTPOutcome)
    (renderHead renderDescribe : Table → String)
    (chart : ChartOutcome)
    (filePath : String) (questions : Option (List String)) :
    Except String AnalysisReport :=
  match read_file fsExists handler filePath with
  | .error _ => .error "无法读取文件"
  | .ok df =>
    .ok { path := filePath
          shape := (df.rows.length, df.columns.length)
          columns := df.columns
          analyses := analyzeAnalyses collab renderHead renderDescribe filePath df
            (resolveQuestions questions)
          chartPath := generate_charts chart }

/-! The template catalog and CLI question selection (`analyze_advanced.py`). -/

/-- `REPORT_TEMPLATES` (`analyze_advanced.py` lines 32-88), as an ordered
association list (Python dicts preserve insertion order). -/
def REPORT_TEMPLATES : List (String × List String) :=
  [ ("basic",
      [ "请分析这个数据集的基本统计信息"
      , "数据中有哪些主要的趋势和模式？"
      , "有什么异常值或需要注意的数据质量问题吗？"
      , "基于这些数据，你有什么业务洞察和建议？" ])
  , ("quality",
      [ "生成完整的数据质量评估报告，包括数据完整性、一致性、准确性分析"
      , "检测和报告所有数据质量问题：缺失值、重复值、异常值、格式错误"
      , "评估数据的可信度和可用性，提供数据清洗建议"
      , "分析数据源的稳定性和数据收集过程中的潜在问题" ])
  , ("business",
      [ "创建商业智能仪表板，展示关键业务指标和KPI"
      , "分析业务趋势，识别增长机会和风险点"
      , "提供可执行的业务洞察和战略建议"
      , "生成面向管理层的数据驱动决策支持报告" ])
  , ("statistical",
      [ "生成详细的描述性统计分析，包含均值、中位数、标准差、分位数"
      , "进行数据分布分析，包括正态性检验、偏度和峰度分析"
      , "执行假设检验，验证数据的统计显著性"
      , "创建置信区间分析和统计推断报告" ])
  , ("predictive",
      [ "基于历史数据进行趋势预测和未来值估算"
      , "识别数据中的季节性模式和周期性变化"
      , "建立预测模型并评估预测准确性"
      , "提供风险评估和不确定性分析" ])
  , ("correlation",
      [ "创建全面的相关性分析矩阵，发现变量间的关联关系"
      , "识别强相关和弱相关的变量对，分析因果关系"
      , "进行多变量分析，探索复杂的交互效应"
      , "提供基于相关性的特征选择和降维建议" ])
  , ("anomaly",
      [ "使用多种统计方法检测数据中的异常值和离群点"
      , "分析异常值的分布特征和可能的产生原因"
      , "评估异常值对整体分析结果的影响"
      , "提供异常值处理策略和数据清洗方案" ])
  , ("comprehensive",
      [ "生成全面的数据科学报告，涵盖数据质量、统计分析、业务洞察"
      , "创建多维度数据探索，包括单变量、双变量、多变量分析"
      , "提供完整的数据故事，从原始数据到可执行的见解"
      , "建立数据分析流水线，支持持续的数据监控和分析" ]) ]

/-- The valid template names, in catalog order: what the CLI prints as
`list(REPORT_TEMPLATES.keys())` when rejecting an unknown name. -/
def templateNames : List String :=
  REPORT_TEMPLATES.map Prod.fst

/-- Typed failure of template resolution: the two usage-error branches of
`main` in `analyze_advanced.py` (lines 126-128 and 133-135). -/
inductive TemplateError where
  | unknownTemplate (valid : List String)
  | missingQuestions
deriving Repr, DecidableEq

/-- Template resolution of `main` (`analyze_advanced.py` lines 120-135):
lowercase the requested name; `custom` takes the caller-supplied question
arguments and rejects an empty list; any other name is looked up in the
catalog, and an unknown one is rejected with the list of valid names. -/
def getTemplate (nameArg : String) (customArgs : List String) :
    Except TemplateError (List String) :=
  let rt := pyLower nameArg
  if rt = "custom" then
    if customArgs.isEmpty then .error .missingQuestions else .ok customArgs
  else
    match REPORT_TEMPLATES.lookup rt with
    | some qs => .ok qs
    | none => .error (.unknownTemplate templateNames)

/-- Question selection of `main` (`analyze_advanced.py` lines 119-139):
with a template argument present, resolve it; with none, fall back to the
`comprehensive` template. -/
def mainQuestions (templateArg : Option String) (customArgs : List String) :
    Except TemplateError (String × List String) :=
  match templateArg with
  | some nameArg => (getTemplate nameArg customArgs).map (fun qs => (pyLower nameArg, qs))
  | none => .ok ("comprehensive", (REPORT_TEMPLATES.lookup "comprehensive").getD [])

/-! The report writer (`analyze_advanced.py` lines 175-188). -/

/-- Concatenate a list of strings in order. -/
def concatStrings : List String → String
  | [] => ""
  | s :: rest => s ++ concatStrings rest

/-- Python `str.upper()` restricted to ASCII letters (applied to the
template name). -/
def pyUpper (s : String) : String :=
  String.mk (s.data.map Char.toUpper)

/-- The report header (lines 178-181): title with the uppercased template
name, source path, generation timestamp, and a rule of 60 equal signs. -/
def reportHeader (reportType filePath timestamp : String) : String :=
  "# " ++ pyUpper reportType ++ " 数据分析报告\n"
    ++ "文件: " ++ filePath ++ "\n"
    ++ "生成时间: " ++ timestamp ++ "\n"
    ++ String.mk (List.replicate 60 '=') ++ "\n\n"

/-- One numbered section of the report body: the question under a numbered
heading, the answer, and a rule of 40 dashes (lines 184-186). -/
def sectionString (i : Nat) (a : Analysis) : String :=
  "## 分析 " ++ toString i ++ ": " ++ a.question ++ "\n\n"
    ++ a.answer ++ "\n\n"
    ++ String.mk (List.replicate 40 '-') ++ "\n\n"

/-- The body loop (lines 183-186): `for i, analysis in
enumerate(result["analyses"], 1)` writes one numbered section per entry. -/
def writeLoop : Nat → List Analysis → String
  | _, [] => ""
  | i, a :: rest =>
    "## 分析 " ++ toString i ++ ": " ++ a.question ++ "\n\n"
      ++ a.answer ++ "\n\n"
      ++ String.mk (List.replicate 40 '-') ++ "\n\n"
      ++ writeLoop (i + 1) rest

/-- The whole text written to the report file (lines 177-186), with the
timestamp (`pd.Timestamp.now()` rendering) passed in. -/
def write_report (reportType filePath timestamp : String)
    (analyses : List Analysis) : String :=
  reportHeader reportType filePath timestamp ++ writeLoop 1 analyses

/-! General lemmas about the embedded operations. -/

theorem analyzeLoop_length (collab : Nat → String → HTTPOutcome)
    (renderHead renderDescribe : Table → String) (filePath : String) (df : Table)
    (qs : List String) : ∀ i : Nat,
    (analyzeLoop collab renderHead renderDescribe filePath df i qs).length = qs.length := by
  induction qs with
  | nil => intro i; rfl
  | cons q rest ih =>
    intro i
    simp [analyzeLoop, ih (i + 1)]

theorem analyzeLoop_getElem (collab : Nat → String → HTTPOutcome)
    (renderHead renderDescribe : Table → String) (filePath : String) (df : Table)
    (qs : List String) : ∀ i k : Nat,
    (analyzeLoop collab renderHead renderDescribe filePath df i qs)[k]? =
      (qs[k]?).map (fun q =>
        { question := q
          answer := chat_with_llm (collab (i + k)
            (buildPrompt renderHead renderDescribe filePath df q)) }) := by
  induction qs with
  | nil => intro i k; simp [analyzeLoop]
  | cons q rest ih =>
    intro i k
    cases k with
    | zero => simp [analyzeLoop]
    | succ k =>
      have h : i + 1 + k = i + (k + 1) := by omega
      simp only [analyzeLoop, List.getElem?_cons_succ, ih (i + 1) k, h]

/-- C1: for every table and question list, the orchestrator produces
exactly one question/answer entry per question in input order, with no
reordering or deduplication; the answer of entry `k` is the processed
outcome of the call made for that question: the returned text verbatim on
HTTP 200, a formatted error string embedding the status on any other
status, and a formatted error string embedding the exception message on a
transport error — so a failing call leaves all remaining questions
processed. -/
theorem analyze_per_question_entries (collab : Nat → String → HTTPOutcome)
    (renderHead renderDescribe : Table → String) (filePath : String) (df : Table)
    (questions : List String) :
    (analyzeAnalyses collab renderHead renderDescribe filePath df questions).length
        = questions.length
  ∧ (∀ (k : Nat) (q : String), questions[k]? = some q →
      (analyzeAnalyses collab renderHead renderDescribe filePath df questions)[k]? =
        some { question := q
               answer := chat_with_llm (collab (1 + k)
                 (buildPrompt renderHead renderDescribe filePath df q)) })
  ∧ (∀ text : String, chat_with_llm (.response 200 text) = text)
  ∧ (∀ (status : Nat) (text : String), status ≠ 200 →
      chat_with_llm (.response status text) = "错误: HTTP " ++ toString status)
  ∧ (∀ msg : String, chat_with_llm (.failure msg) = "请求失败: " ++ msg) := by
  refine ⟨analyzeLoop_length collab renderHead renderDescribe filePath df questions 1,
    ?_, fun _ => rfl, ?_, fun _ => rfl⟩
  · intro k q hq
    unfold analyzeAnalyses
    rw [analyzeLoop_getElem collab renderHead renderDescribe filePath df questions 1 k, hq]
    rfl
  · intro status text h
    simp [chat_with_llm, h]

/-- Stub collaborator for witnesses: the first call raises a transport
error, every later call returns OK with status 200. -/
def stubCollab : Nat → String → HTTPOutcome :=
  fun i _ => if i = 1 then .failure "connection refused" else .response 200 "OK"

/-- Stub table for witnesses. -/
def stubTable : Table :=
  { columns := ["a", "b"], rows := [["1", "2"], ["3", "4"]] }

/-- Stub pandas renderer for witnesses. -/
def stubRender : Table → String :=
  fun _ => "rendered"

theorem analyze_per_question_entries_witness :
    (analyzeAnalyses stubCollab stubRender stubRender "data.csv" stubTable
        ["q1", "q2"]).length = 2
  ∧ (analyzeAnalyses stubCollab stubRender stubRender "data.csv" stubTable
        ["q1", "q2"])[0]? = some { question := "q1", answer := "请求失败: connection refused" }
  ∧ (analyzeAnalyses stubCollab stubRender stubRender "data.csv" stubTable
        ["q1", "q2"])[1]? = some { question := "q2", answer := "OK" } := by
  have h := analyze_per_question_entries stubCollab stubRender stubRender "data.csv" stubTable
    ["q1", "q2"]
  refine ⟨h.1, ?_, ?_⟩
  · rw [h.2.1 0 "q1" rfl]; rfl
  · rw [h.2.1 1 "q2" rfl]; rfl

/-- C8: the analysis sequence is a deterministic function of the table,
the question list and the input/output behaviour of the collaborators:
two runs against extensionally equal (stubbed) collaborators and pandas
renderers produce identical question/answer sequences. -/
theorem analyze_deterministic (c1 c2 : Nat → String → HTTPOutcome)
    (rh1 rh2 rd1 rd2 : Table → String) (filePath : String) (df : Table)
    (questions : List String)
    (hc : ∀ i p, c1 i p = c2 i p)
    (hh : ∀ t, rh1 t = rh2 t)
    (hd : ∀ t, rd1 t = rd2 t) :
    analyzeAnalyses c1 rh1 rd1 filePath df questions
      = analyzeAnalyses c2 rh2 rd2 filePath df questions := by
  have e1 : rh1 = rh2 := funext hh
  have e2 : rd1 = rd2 := funext hd
  have e3 : c1 = c2 := funext fun i => funext fun p => hc i p
  rw [e1, e2, e3]

/-- A second stub collaborator, syntactically different from a constant
success stub but with the same input/output behaviour. -/
def stubCollabOk : Nat → String → HTTPOutcome :=
  fun _ _ => .response 200 "OK"

/-- Same behaviour as `stubCollabOk`, written differently. -/
def stubCollabOk2 : Nat → String → HTTPOutcome :=
  fun _ _ => .response (100 + 100) ("O" ++ "K")

theorem analyze_deterministic_witness :
    analyzeAnalyses stubCollabOk stubRender stubRender "data.csv" stubTable ["q1", "q2"]
      = analyzeAnalyses stubCollabOk2 stubRender stubRender "data.csv" stubTable ["q1", "q2"] :=
  analyze_deterministic stubCollabOk stubCollabOk2 stubRender stubRender stubRender stubRender
    "data.csv" stubTable ["q1", "q2"] (fun _ _ => rfl) (fun _ => rfl) (fun _ => rfl)

/-! Branch lemmas for `read_file`, shared by several results below. -/

theorem read_file_of_not_found (fsExists : String → Bool)
    (handler : String → String → Except String Table) (path : String)
    (h : fsExists path = false) :
    read_file fsExists handler path = .error .fileNotFound := by
  simp [read_file, h]

theorem read_file_of_unsupported (fsExists : String → Bool)
    (handler : String → String → Except String Table) (path : String)
    (h : fsExists path = true) (hext : fileExt path ∉ supportedFormats) :
    read_file fsExists handler path = .error (.unsupportedFormat (fileExt path)) := by
  simp [read_file, h, hext]

theorem read_file_of_parse_error (fsExists : String → Bool)
    (handler : String → String → Except String Table) (path : String) (msg : String)
    (h : fsExists path = true) (hext : fileExt path ∈ supportedFormats)
    (hh : handler (fileExt path) path = .error msg) :
    read_file fsExists handler path = .error (.parseFailure msg) := by
  simp [read_file, h, hext, hh]

theorem read_file_of_parse_ok (fsExists : String → Bool)
    (handler : String → String → Except String Table) (path : String) (df : Table)
    (h : fsExists path = true) (hext : fileExt path ∈ supportedFormats)
    (hh : handler (fileExt path) path = .ok df) :
    read_file fsExists handler path = .ok df := by
  simp [read_file, h, hext, hh]

/-- C2: the loader either returns a table or fails with exactly one of
the three typed failures, each under the stated condition: missing file,
extension (case-folded) outside the recognized set, or a handler raise
whose message is captured; and no failure produces a table. -/
theorem read_file_error_taxonomy (fsExists : String → Bool)
    (handler : String → String → Except String Table) (path : String) :
    (fsExists path = false → read_file fsExists handler path = .error .fileNotFound)
  ∧ (fsExists path = true → fileExt path ∉ supportedFormats →
      read_file fsExists handler path = .error (.unsupportedFormat (fileExt path)))
  ∧ (∀ msg : String, fsExists path = true → fileExt path ∈ supportedFormats →
      handler (fileExt path) path = .error msg →
      read_file fsExists handler path = .error (.parseFailure msg))
  ∧ (∀ df : Table, fsExists path = true → fileExt path ∈ supportedFormats →
      handler (fileExt path) path = .ok df →
      read_file fsExists handler path = .ok df)
  ∧ (∀ err : LoadError, read_file fsExists handler path = .error err →
      ∀ df : Table, read_file fsExists handler path ≠ .ok df) := by
  refine ⟨read_file_of_not_found fsExists handler path,
    read_file_of_unsupported fsExists handler path,
    fun msg h hext hh => read_file_of_parse_error fsExists handler path msg h hext hh,
    fun df h hext hh => read_file_of_parse_ok fsExists handler path df h hext hh,
    ?_⟩
  intro err herr df hok
  rw [herr] at hok
  exact Except.noConfusion hok

/-- Stub handler for witnesses: parsing always succeeds with `stubTable`. -/
def stubHandlerOk : String → String → Except String Table :=
  fun _ _ => .ok stubTable

/-- Stub handler for witnesses: parsing always raises. -/
def stubHandlerBad : String → String → Except String Table :=
  fun _ _ => .error "bad header row"

theorem read_file_error_taxonomy_witness :
    read_file (fun _ => false) stubHandlerOk "missing.csv" = .error .fileNotFound
  ∧ read_file (fun _ => true) stubHandlerOk "notes.docx"
      = .error (.unsupportedFormat ".docx")
  ∧ read_file (fun _ => true) stubHandlerBad "data.csv" = .error (.parseFailure "bad header row")
  ∧ read_file (fun _ => true) stubHandlerOk "data.csv" = .ok stubTable := by
  refine ⟨(read_file_error_taxonomy (fun _ => false) stubHandlerOk "missing.csv").1 rfl,
    ?_, ?_, ?_⟩
  · exact (read_file_error_taxonomy (fun _ => true) stubHandlerOk "notes.docx").2.1 rfl
      (by decide)
  · exact (read_file_error_taxonomy (fun _ => true) stubHandlerBad "data.csv").2.2.1
      "bad header row" rfl (by decide) rfl
  · exact (read_file_error_taxonomy (fun _ => true) stubHandlerOk "data.csv").2.2.2.1
      stubTable rfl (by decide) rfl

/-- C10: extension recognition is case-insensitive.  The dispatched
extension is the lowercasing of the path suffix; two paths whose
case-folded suffixes agree are treated identically by the loader (for a
handler keyed on the extension only), and the unsupported-format failure
depends only on the case-folded extension. -/
theorem read_file_extension_case_insensitive :
    (∀ path : String, fileExt path = pyLower (pySuffix path))
  ∧ (∀ (fsExists : String → Bool) (parse : String → Except String Table) (p q : String),
      fsExists p = fsExists q → fileExt p = fileExt q →
      read_file fsExists (fun ext _ => parse ext) p
        = read_file fsExists (fun ext _ => parse ext) q)
  ∧ (∀ (fsExists : String → Bool) (handler : String → String → Except String Table)
      (path : String), fsExists path = true →
      ((∃ e : String, read_file fsExists handler path = .error (.unsupportedFormat e))
        ↔ fileExt path ∉ supportedFormats)) := by
  refine ⟨fun _ => rfl, ?_, ?_⟩
  · intro fsExists parse p q hfs hext
    simp only [read_file, hfs, hext]
  · intro fsExists handler path h
    constructor
    · rintro ⟨e, he⟩ hmem
      cases hcase : handler (fileExt path) path with
      | ok df =>
        rw [read_file_of_parse_ok fsExists handler path df h hmem hcase] at he
        exact Except.noConfusion he
      | error msg =>
        rw [read_file_of_parse_error fsExists handler path msg h hmem hcase] at he
        simp at he
    · intro hmem
      exact ⟨fileExt path, read_file_of_unsupported fsExists handler path h hmem⟩

theorem read_file_extension_case_insensitive_witness :
    read_file (fun _ => true) (fun ext _ => stubHandlerOk ext "") "data.CSV"
      = read_file (fun _ => true) (fun ext _ => stubHandlerOk ext "") "data.csv"
  ∧ fileExt "data.CSV" = ".csv" := by
  refine ⟨read_file_extension_case_insensitive.2.1 (fun _ => true)
    (fun ext => stubHandlerOk ext "") "data.CSV" "data.csv" rfl (by decide), by decide⟩

/-! Lemmas about the delimiter trial of `_read_txt`. -/

theorem readTxtTrial_eq_none (attempt : String → Option Table) (seps : List String)
    (h : ∀ sep ∈ seps, ∀ t : Table, attempt sep = some t → t.columns.length ≤ 1) :
    readTxtTrial attempt seps = none := by
  induction seps with
  | nil => rfl
  | cons s rest ih =>
    have hrest : ∀ sep ∈ rest, ∀ t : Table, attempt sep = some t → t.columns.length ≤ 1 :=
      fun sep hm => h sep (List.mem_cons_of_mem s hm)
    cases hs : attempt s with
    | none => simpa [readTxtTrial, hs] using ih hrest
    | some t =>
      have hle := h s (List.mem_cons_self s rest) t hs
      have : ¬ t.columns.length > 1 := Nat.not_lt.2 hle
      simpa [readTxtTrial, hs, this] using ih hrest

theorem readTxtTrial_first_good (attempt : String → Option Table)
    (pre post : List String) (sep : String) (t : Table)
    (hpre : ∀ s ∈ pre, ∀ t2 : Table, attempt s = some t2 → t2.columns.length ≤ 1)
    (hgood : attempt sep = some t) (hcols : 1 < t.columns.length) :
    readTxtTrial attempt (pre ++ sep :: post) = some t := by
  induction pre with
  | nil => simp [readTxtTrial, hgood, hcols]
  | cons s rest ih =>
    have hrest : ∀ s2 ∈ rest, ∀ t2 : Table, attempt s2 = some t2 → t2.columns.length ≤ 1 :=
      fun s2 hm => hpre s2 (List.mem_cons_of_mem s hm)
    cases hs : attempt s with
    | none => simpa [readTxtTrial, hs] using ih hrest
    | some t2 =>
      have hle := hpre s (List.mem_cons_self s rest) t2 hs
      have : ¬ t2.columns.length > 1 := Nat.not_lt.2 hle
      simpa [readTxtTrial, hs, this] using ih hrest

/-- C3: the `.txt` reader is total — it always returns a table — and when
no delimiter attempt yields more than one column (an attempt either
raises, modelled as `none`, or parses to at most one column) the result is
the fallback: a single column holding each input line stripped of
surrounding whitespace, with one row per line of the (UTF-8 decoded)
content. -/
theorem read_txt_fallback_total (attempt : String → Option Table) (content : String)
    (h : ∀ sep ∈ txtSeparators, ∀ t : Table, attempt sep = some t →
      t.columns.length ≤ 1) :
    read_txt attempt content = txtFallback content
  ∧ (read_txt attempt content).columns = ["content"]
  ∧ (read_txt attempt content).rows
      = (pyReadLines content).map (fun l => [pyStrip l])
  ∧ (read_txt attempt content).rows.length = (pyReadLines content).length := by
  have hfb : read_txt attempt content = txtFallback content := by
    unfold read_txt
    rw [readTxtTrial_eq_none attempt txtSeparators h]
    rfl
  refine ⟨hfb, ?_, ?_, ?_⟩
  · rw [hfb]; rfl
  · rw [hfb]; rfl
  · rw [hfb]
    exact List.length_map (pyReadLines content) (fun l => [pyStrip l])

/-- Stub attempt for witnesses: every delimiter parse raises. -/
def stubAttemptFail : String → Option Table :=
  fun _ => none

theorem read_txt_fallback_total_witness :
    read_txt stubAttemptFail "a\n b \nc"
      = { columns := ["content"], rows := [["a"], ["b"], ["c"]] }
  ∧ (read_txt stubAttemptFail "a\n b \nc").rows.length = 3 := by
  have h := read_txt_fallback_total stubAttemptFail "a\n b \nc"
    (fun sep _ t ht => Option.noConfusion ht)
  exact ⟨h.1.trans (by decide), by rw [h.1]; decide⟩

/-- C4: the `.txt` reader tries the delimiters in the fixed order comma,
tab, semicolon, pipe, space; a raised parse attempt does not stop the
trial; and the parse of the first delimiter that yields more than one
column is returned, so whenever some delimiter in the trial parses to
more than one column (in particular the comma, first in the order, on a
consistent comma-delimited file of width greater than one) the result has
more than one column. -/
theorem read_txt_delimiter_first_match (attempt : String → Option Table) (content : String)
    (pre post : List String) (sep : String) (t : Table)
    (hsplit : txtSeparators = pre ++ sep :: post)
    (hpre : ∀ s ∈ pre, ∀ t2 : Table, attempt s = some t2 → t2.columns.length ≤ 1)
    (hgood : attempt sep = some t) (hcols : 1 < t.columns.length) :
    txtSeparators = [",", "\t", ";", "|", " "]
  ∧ (∀ (s : String) (rest : List String), attempt s = none →
      readTxtTrial attempt (s :: rest) = readTxtTrial attempt rest)
  ∧ read_txt attempt content = t
  ∧ 1 < (read_txt attempt content).columns.length := by
  have hres : read_txt attempt content = t := by
    unfold read_txt
    rw [hsplit, readTxtTrial_first_good attempt pre post sep t hpre hgood hcols]
    rfl
  refine ⟨rfl, ?_, hres, ?_⟩
  · intro s rest hs
    simp [readTxtTrial, hs]
  · rw [hres]; exact hcols

/-- Stub attempt for witnesses: the comma parse succeeds with a
two-column table (as pandas does on a consistent comma-delimited file of
width two), every other delimiter raises. -/
def stubAttemptComma : String → Option Table :=
  fun sep => if sep = "," then some stubTable else none

theorem read_txt_delimiter_first_match_witness :
    read_txt stubAttemptComma "a,b\n1,2\n3,4" = stubTable
  ∧ 1 < (read_txt stubAttemptComma "a,b\n1,2\n3,4").columns.length := by
  have h := read_txt_delimiter_first_match stubAttemptComma "a,b\n1,2\n3,4"
    [] ["\t", ";", "|", " "] "," stubTable rfl
    (fun s hs => absurd hs (List.not_mem_nil s)) rfl (by decide)
  exact ⟨h.2.2.1, h.2.2.2⟩

/-! The template catalog results. -/

theorem lookup_eq_none_of_not_mem_keys (l : List (String × List String)) (k : String)
    (h : k ∉ l.map Prod.fst) : l.lookup k = none := by
  induction l with
  | nil => rfl
  | cons p rest ih =>
    simp only [List.map_cons, List.mem_cons, not_or] at h
    have hne : (k == p.1) = false := beq_eq_false_iff_ne.2 h.1
    simp [List.lookup, hne, ih h.2]

/-- C6: template resolution returns the named fixed non-empty question
sequence for every valid catalog name; any other non-custom name fails
with the unknown-template error listing the valid names (spelled out in
the first conjunct); and custom with an empty caller-supplied question
list fails with the missing-questions error. -/
theorem getTemplate_spec :
    templateNames = ["basic", "quality", "business", "statistical", "predictive",
      "correlation", "anomaly", "comprehensive"]
  ∧ (∀ name ∈ templateNames, ∀ customArgs : List String,
      ∃ qs : List String, getTemplate name customArgs = .ok qs ∧ qs ≠ [])
  ∧ (∀ (name : String) (customArgs : List String),
      pyLower name ∉ templateNames → pyLower name ≠ "custom" →
      getTemplate name customArgs = .error (.unknownTemplate templateNames))
  ∧ (∀ name : String, pyLower name = "custom" →
      getTemplate name [] = .error .missingQuestions) := by
  refine ⟨rfl, ?_, ?_, ?_⟩
  · intro name hmem customArgs
    simp only [templateNames, REPORT_TEMPLATES, List.map_cons, List.map_nil,
      List.mem_cons, List.not_mem_nil, or_false] at hmem
    rcases hmem with rfl | rfl | rfl | rfl | rfl | rfl | rfl | rfl
    all_goals exact ⟨_, rfl, by decide⟩
  · intro name customArgs hmem hcustom
    unfold getTemplate
    rw [if_neg hcustom, lookup_eq_none_of_not_mem_keys REPORT_TEMPLATES (pyLower name) hmem]
  · intro name h
    unfold getTemplate
    rw [if_pos h]
    rfl

theorem getTemplate_spec_witness :
    (∃ qs : List String, getTemplate "quality" [] = .ok qs ∧ qs ≠ [])
  ∧ getTemplate "nonexistent" [] = .error (.unknownTemplate templateNames)
  ∧ getTemplate "custom" [] = .error .missingQuestions := by
  exact ⟨getTemplate_spec.2.1 "quality" (by decide) [],
    getTemplate_spec.2.2.1 "nonexistent" [] (by decide) (by decide),
    getTemplate_spec.2.2.2 "custom" (by decide)⟩

/-- C7: once the file loads to a valid table, `analyze_file` cannot fail:
for every collaborator behaviour and chart outcome it returns a complete
report, and when the chart body raises the report is still produced, its
chart path `none`, with the full analysis list intact. -/
theorem analyze_chart_failure_resilience (fsExists : String → Bool)
    (handler : String → String → Except String Table)
    (collab : Nat → String → HTTPOutcome) (renderHead renderDescribe : Table → String)
    (filePath : String) (questions : Option (List String)) (msg : String) (df : Table)
    (hload : read_file fsExists handler filePath = .ok df) :
    analyze_file fsExists handler collab renderHead renderDescribe
        (.failure msg) filePath questions
      = .ok { path := filePath
              shape := (df.rows.length, df.columns.length)
              columns := df.columns
              analyses := analyzeAnalyses collab renderHead renderDescribe filePath df
                (resolveQuestions questions)
              chartPath := none }
  ∧ (∀ rep : AnalysisReport,
      analyze_file fsExists handler collab renderHead renderDescribe
          (.failure msg) filePath questions = .ok rep →
      rep.chartPath = none
        ∧ rep.analyses.length = (resolveQuestions questions).length) := by
  have h1 : analyze_file fsExists handler collab renderHead renderDescribe
      (.failure msg) filePath questions
      = .ok { path := filePath
              shape := (df.rows.length, df.columns.length)
              columns := df.columns
              analyses := analyzeAnalyses collab renderHead renderDescribe filePath df
                (resolveQuestions questions)
              chartPath := none } := by
    unfold analyze_file
    rw [hload]
    rfl
  refine ⟨h1, ?_⟩
  intro rep hrep
  rw [h1] at hrep
  have h2 := Except.ok.inj hrep
  rw [← h2]
  exact ⟨rfl, analyzeLoop_length collab renderHead renderDescribe filePath df
    (resolveQuestions questions) 1⟩

theorem analyze_chart_failure_resilience_witness :
    analyze_file (fun _ => true) stubHandlerOk stubCollabOk stubRender stubRender
        (.failure "matplotlib raised") "data.csv" (some ["q1"])
      = .ok { path := "data.csv"
              shape := (2, 2)
              columns := ["a", "b"]
              analyses := analyzeAnalyses stubCollabOk stubRender stubRender "data.csv"
                stubTable ["q1"]
              chartPath := none } :=
  (analyze_chart_failure_resilience (fun _ => true) stubHandlerOk stubCollabOk
    stubRender stubRender "data.csv" (some ["q1"]) "matplotlib raised" stubTable rfl).1

/-! Default-question selection (C5). -/

/-- The question list a report run actually used, extracted from the
result of `analyze_file`. -/
def reportQuestions (r : Except String AnalysisReport) : List String :=
  match r with
  | .ok rep => rep.analyses.map Analysis.question
  | .error _ => []

/-- C5 counterexample: an analysis requested without an explicit template
name or question list does not always use the comprehensive template.
At the concrete input `questions = none` (how `analyze_file.py` invokes
the analyzer when no questions are given on the command line),
`analyze_file` uses its own built-in eight-question default, which differs
from the four-question comprehensive template. -/
theorem analyze_default_questions_counterexample :
    reportQuestions (analyze_file (fun _ => true) stubHandlerOk stubCollabOk
        stubRender stubRender (.ok "chart.png") "data.csv" none)
      = defaultQuestions
  ∧ defaultQuestions.length = 8
  ∧ ((REPORT_TEMPLATES.lookup "comprehensive").getD []).length = 4
  ∧ reportQuestions (analyze_file (fun _ => true) stubHandlerOk stubCollabOk
        stubRender stubRender (.ok "chart.png") "data.csv" none)
      ≠ (REPORT_TEMPLATES.lookup "comprehensive").getD [] := by
  refine ⟨by decide, rfl, rfl, ?_⟩
  intro h
  have hlen := congrArg List.length h
  rw [show reportQuestions (analyze_file (fun _ => true) stubHandlerOk stubCollabOk
    stubRender stubRender (.ok "chart.png") "data.csv" none) = defaultQuestions by decide] at hlen
  exact absurd hlen (by decide)

/-- C5 amended: when the advanced CLI is invoked without a template name,
the questions used are exactly the comprehensive template sequence; but
`analyze_file` invoked without an explicit question list uses its own
built-in eight-question default, which is not the comprehensive
sequence. -/
theorem cli_and_analyze_default_questions (customArgs : List String)
    (fsExists : String → Bool) (handler : String → String → Except String Table)
    (collab : Nat → String → HTTPOutcome) (renderHead renderDescribe : Table → String)
    (chart : ChartOutcome) (filePath : String) (df : Table)
    (hload : read_file fsExists handler filePath = .ok df) :
    (∃ qs : List String, REPORT_TEMPLATES.lookup "comprehensive" = some qs
      ∧ mainQuestions none customArgs = .ok ("comprehensive", qs)
      ∧ defaultQuestions ≠ qs)
  ∧ analyze_file fsExists handler collab renderHead renderDescribe chart filePath none
      = .ok { path := filePath
              shape := (df.rows.length, df.columns.length)
              columns := df.columns
              analyses := analyzeAnalyses collab renderHead renderDescribe filePath df
                defaultQuestions
              chartPath := generate_charts chart } := by
  refine ⟨⟨_, rfl, rfl, by decide⟩, ?_⟩
  unfold analyze_file
  rw [hload]
  rfl

theorem cli_and_analyze_default_questions_witness :
    (∃ qs : List String, REPORT_TEMPLATES.lookup "comprehensive" = some qs
      ∧ mainQuestions none [] = .ok ("comprehensive", qs)
      ∧ defaultQuestions ≠ qs)
  ∧ analyze_file (fun _ => true) stubHandlerOk stubCollabOk stubRender stubRender
        (.ok "chart.png") "data.csv" none
      = .ok { path := "data.csv"
              shape := (2, 2)
              columns := ["a", "b"]
              analyses := analyzeAnalyses stubCollabOk stubRender stubRender "data.csv"
                stubTable defaultQuestions
              chartPath := some "chart.png" } :=
  cli_and_analyze_default_questions [] (fun _ => true) stubHandlerOk stubCollabOk
    stubRender stubRender (.ok "chart.png") "data.csv" stubTable rfl

/-! The report writer result (C9). -/

theorem writeLoop_sections (analyses : List Analysis) : ∀ i : Nat,
    writeLoop i analyses
      = concatStrings ((analyses.enumFrom i).map (fun p => sectionString p.1 p.2)) := by
  induction analyses with
  | nil => intro i; rfl
  | cons a rest ih =>
    intro i
    show sectionString i a ++ writeLoop (i + 1) rest = _
    rw [ih (i + 1)]
    rfl

/-- C9: for every report with a non-empty analysis list, the written text
is the header — uppercased report type, source path, generation
timestamp, and a rule of 60 equal signs — followed by, for each analysis
entry in input order, a numbered section (numbering from 1) holding that
entry question and answer and terminated by a rule of 40 dashes. -/
theorem write_report_structure (reportType filePath timestamp : String)
    (analyses : List Analysis) (h : analyses ≠ []) :
    write_report reportType filePath timestamp analyses
      = reportHeader reportType filePath timestamp
        ++ concatStrings ((analyses.enumFrom 1).map (fun p => sectionString p.1 p.2))
  ∧ reportHeader reportType filePath timestamp
      = "# " ++ pyUpper reportType ++ " 数据分析报告\n" ++ "文件: " ++ filePath ++ "\n"
        ++ "生成时间: " ++ timestamp ++ "\n" ++ String.mk (List.replicate 60 '=') ++ "\n\n"
  ∧ (∀ (i : Nat) (a : Analysis), sectionString i a
      = "## 分析 " ++ toString i ++ ": " ++ a.question ++ "\n\n" ++ a.answer ++ "\n\n"
        ++ String.mk (List.replicate 40 '-') ++ "\n\n") :=
  ⟨by unfold write_report; rw [writeLoop_sections analyses 1], rfl, fun _ _ => rfl⟩

theorem write_report_structure_witness :
    write_report "basic" "data.csv" "2024-01-01 00:00:00"
        [{ question := "q1", answer := "a1" }, { question := "q2", answer := "a2" }]
      = reportHeader "basic" "data.csv" "2024-01-01 00:00:00"
        ++ concatStrings (([({ question := "q1", answer := "a1" } : Analysis),
            { question := "q2", answer := "a2" }].enumFrom 1).map
          (fun p => sectionString p.1 p.2)) :=
  (write_report_structure "basic" "data.csv" "2024-01-01 00:00:00"
    [{ question := "q1", answer := "a1" }, { question := "q2", answer := "a2" }]
    (by decide)).1
